import Mathlib

/-!
Verification of `complyscribe/cli/config.py`: a shallow embedding of the
configuration loading / validation / serialization module, together with
theorems settling the specification's claims about it.

Modelling conventions:
* YAML values are the inductive `Yaml` (null, bool, int, str, sequence,
  mapping with string keys).  Python `None` is `Yaml.null`.
* The filesystem is explicit: a map from path strings to parsed YAML file
  contents plus the set of existing directories.  Reading a file and the
  `DirectoryPath` existence probe consult it.
* pydantic validation (`ComplyScribeConfig(**d)` / `model_validate`) is
  embedded as `validateConfig`: it checks every declared field, collects
  all violations (pydantic's collect-all policy) in field-declaration
  order, ignores unknown keys, and does not coerce across types.
* `model_copy(update=...)` is embedded as not validating, which is
  pydantic's documented behaviour for `model_copy`.
* Fallible operations return `Except ComplyScribeConfigError`.
-/

/-- YAML values as produced by `yaml.safe_load`.  Mapping keys are modelled
as strings (the only keys the config schema ever accepts). -/
inductive Yaml where
  | null : Yaml
  | bool (b : Bool) : Yaml
  | int (n : Int) : Yaml
  | str (s : String) : Yaml
  | seq (xs : List Yaml) : Yaml
  | map (kvs : List (String × Yaml)) : Yaml
  deriving Repr

/-- Filesystem model: parsed YAML contents of existing files, and the set of
existing directory paths (consulted by pydantic's `DirectoryPath` check). -/
structure FileSystem where
  files : List (String × Yaml)
  dirs : List String
  deriving Repr

/-- Reads the parsed YAML content of a file, `none` when no file exists at
the path (Python's `FileNotFoundError` branch). -/
def FileSystem.readFile (fs : FileSystem) (path : String) : Option Yaml :=
  List.lookup path fs.files

/-- Does a path exist on disk as a directory (pydantic `DirectoryPath`)? -/
def FileSystem.isDir (fs : FileSystem) (path : String) : Bool :=
  fs.dirs.contains path

/-- A pydantic violation record as consumed by `ComplyScribeConfigError`:
the `loc` tuple of path segments and the `msg` string.  A missing `msg`
key and an empty `msg` are indistinguishable to the Python code (both are
falsy under `err.get`), so `msg` is a plain string with `""` for absent;
likewise an empty `loc` tuple stands for an absent path. -/
structure ErrDict where
  loc : List String
  msg : String
  deriving Repr, DecidableEq

/-- Embedding of `ComplyScribeConfigError._format`: the per-violation
formatted message. -/
def formatError (err : ErrDict) : String :=
  let msg := "Unable to load config."
  let msg := if err.loc ≠ [] then "Invalid config value for " ++ err.loc.headD "" ++ "." else msg
  if err.msg ≠ "" then msg ++ " " ++ err.msg ++ "." else msg

/-- Embedding of the `ComplyScribeConfigError` exception object: it carries
the ordered list of formatted messages (`self.errors`) and the summary
passed to `Exception.__init__`. -/
structure ComplyScribeConfigError where
  errors : List String
  summary : String
  deriving Repr, DecidableEq

/-- Embedding of `ComplyScribeConfigError.__init__`. -/
def mkConfigError (errs : List ErrDict) : ComplyScribeConfigError :=
  { errors := errs.map formatError
    summary := "complyscribe config file contains " ++ toString errs.length ++ " error(s)." }

/-- Embedding of `ComplyScribeConfigError.__str__`: the combined message is
the concatenation of the formatted violations with no separator. -/
def ComplyScribeConfigError.combined (e : ComplyScribeConfigError) : String :=
  String.join e.errors

/-- Data model for upstream sources (`UpstreamsConfig`), with the source's
field defaults. -/
structure UpstreamsConfig where
  sources : List String
  include_models : List String := ["*"]
  exclude_models : List String := []
  skip_validation : Bool := false
  deriving Repr, DecidableEq

/-- Data model for complyscribe configuration (`ComplyScribeConfig`), fields
in the source's declaration order.  `repo_path` is a `DirectoryPath`
rendered as its path string. -/
structure ComplyScribeConfig where
  repo_path : Option String := none
  markdown_dir : Option String := none
  committer_name : Option String := none
  committer_email : Option String := none
  commit_message : Option String := none
  branch : Option String := none
  ssp_index_file : Option String := none
  upstreams : Option UpstreamsConfig := none
  deriving Repr, DecidableEq

/-- Python `str(self.repo_path)`: the path string, or the literal string
`"None"` when the field is `None`. -/
def strOfRepoPath : Option String → String
  | none => "None"
  | some s => s

/-- An `Optional[str]` field value placed into `config_dict`. -/
def yamlOfOptStr : Option String → Yaml
  | none => Yaml.null
  | some s => Yaml.str s

/-- Membership in `IGNORED_VALUES = [None, "None", []]`, by Python `==`
on the values that can occur in `config_dict`. -/
def isIgnoredYaml : Yaml → Bool
  | Yaml.null => true
  | Yaml.str s => s == "None"
  | Yaml.seq xs => xs.isEmpty
  | _ => false

/-- Nested `upstreams` mapping built inside `to_yaml_dict`: `sources`,
`skip_validation`, `include_models` always, `exclude_models` only when
non-empty. -/
def upstreamsYamlDict (u : UpstreamsConfig) : List (String × Yaml) :=
  [("sources", Yaml.seq (u.sources.map Yaml.str)),
   ("skip_validation", Yaml.bool u.skip_validation),
   ("include_models", Yaml.seq (u.include_models.map Yaml.str))] ++
  (if u.exclude_models.isEmpty then []
   else [("exclude_models", Yaml.seq (u.exclude_models.map Yaml.str))])

/-- Embedding of `ComplyScribeConfig.to_yaml_dict`: the ordered
`config_dict`, extended with `upstreams` when set, then filtered through
`IGNORED_VALUES`. -/
def ComplyScribeConfig.to_yaml_dict (c : ComplyScribeConfig) : List (String × Yaml) :=
  let config_dict : List (String × Yaml) :=
    [("repo_path", Yaml.str (strOfRepoPath c.repo_path)),
     ("markdown_dir", yamlOfOptStr c.markdown_dir),
     ("ssp_index_file", yamlOfOptStr c.ssp_index_file),
     ("committer_name", yamlOfOptStr c.committer_name),
     ("committer_email", yamlOfOptStr c.committer_email),
     ("commit_message", yamlOfOptStr c.commit_message),
     ("branch", yamlOfOptStr c.branch)] ++
    (match c.upstreams with
     | none => []
     | some u => [("upstreams", Yaml.map (upstreamsYamlDict u))])
  config_dict.filter (fun item => ! isIgnoredYaml item.2)

/-- Combines two field-validation results, concatenating the collected
violations (pydantic validates every field and aggregates all errors). -/
def exceptPair {α β : Type} :
    Except (List ErrDict) α → Except (List ErrDict) β → Except (List ErrDict) (α × β)
  | Except.ok a, Except.ok b => Except.ok (a, b)
  | Except.error e, Except.ok _ => Except.error e
  | Except.ok _, Except.error f => Except.error f
  | Except.error e, Except.error f => Except.error (e ++ f)

/-- Validation of an `Optional[str]` field: absent and `None` give `none`,
a string is accepted, anything else is a violation at the field's `loc`. -/
def vOptStr (name : String) : Option Yaml → Except (List ErrDict) (Option String)
  | none => Except.ok none
  | some Yaml.null => Except.ok none
  | some (Yaml.str s) => Except.ok (some s)
  | some _ => Except.error [⟨[name], "Input should be a valid string"⟩]

/-- Validation of `Optional[DirectoryPath]` (`repo_path`): a set path must
exist on disk as a directory, so this check consults the filesystem. -/
def vRepoPath (fs : FileSystem) : Option Yaml → Except (List ErrDict) (Option String)
  | none => Except.ok none
  | some Yaml.null => Except.ok none
  | some (Yaml.str s) =>
      if fs.isDir s then Except.ok (some s)
      else Except.error [⟨["repo_path"], "Path does not point to a directory"⟩]
  | some _ => Except.error [⟨["repo_path"], "Input is not a valid path"⟩]

/-- Validation of the elements of a `List[str]` value, collecting a
violation for every non-string element (indexed locs, pydantic style). -/
def vStrElems (loc : List String) (i : Nat) : List Yaml → Except (List ErrDict) (List String)
  | [] => Except.ok []
  | x :: rest =>
      let hd : Except (List ErrDict) String :=
        match x with
        | Yaml.str s => Except.ok s
        | _ => Except.error [⟨loc ++ [toString i], "Input should be a valid string"⟩]
      (exceptPair hd (vStrElems loc (i + 1) rest)).map (fun p => p.1 :: p.2)

/-- Validation of a (non-optional) `List[str]` value. -/
def vStrList (loc : List String) : Yaml → Except (List ErrDict) (List String)
  | Yaml.seq xs => vStrElems loc 0 xs
  | _ => Except.error [⟨loc, "Input should be a valid list"⟩]

/-- Validation of the nested `UpstreamsConfig` model from the mapping under
the `upstreams` key: `sources` required, the rest defaulted, violations
collected in field-declaration order with `upstreams`-prefixed locs. -/
def validateUpstreams (kvs : List (String × Yaml)) : Except (List ErrDict) UpstreamsConfig :=
  let srcs : Except (List ErrDict) (List String) :=
    match List.lookup "sources" kvs with
    | none => Except.error [⟨["upstreams", "sources"], "Field required"⟩]
    | some v => vStrList ["upstreams", "sources"] v
  let inc : Except (List ErrDict) (List String) :=
    match List.lookup "include_models" kvs with
    | none => Except.ok ["*"]
    | some v => vStrList ["upstreams", "include_models"] v
  let exc : Except (List ErrDict) (List String) :=
    match List.lookup "exclude_models" kvs with
    | none => Except.ok []
    | some v => vStrList ["upstreams", "exclude_models"] v
  let skip : Except (List ErrDict) Bool :=
    match List.lookup "skip_validation" kvs with
    | none => Except.ok false
    | some (Yaml.bool b) => Except.ok b
    | some _ => Except.error [⟨["upstreams", "skip_validation"], "Input should be a valid boolean"⟩]
  (exceptPair srcs (exceptPair inc (exceptPair exc skip))).map
    (fun p => ⟨p.1, p.2.1, p.2.2.1, p.2.2.2⟩)

/-- Validation of the `Optional[UpstreamsConfig]` field. -/
def vUpstreams : Option Yaml → Except (List ErrDict) (Option UpstreamsConfig)
  | none => Except.ok none
  | some Yaml.null => Except.ok none
  | some (Yaml.map kvs) => (validateUpstreams kvs).map some
  | some _ =>
      Except.error
        [⟨["upstreams"], "Input should be a valid dictionary or instance of UpstreamsConfig"⟩]

/-- Embedding of pydantic validation of `ComplyScribeConfig` from a raw
mapping (`ComplyScribeConfig(**d)` / `model_validate`): every declared
field is checked, unknown keys are ignored, and all violations are
collected in field-declaration order. -/
def validateConfig (fs : FileSystem) (kvs : List (String × Yaml)) :
    Except (List ErrDict) ComplyScribeConfig :=
  let rp := vRepoPath fs (List.lookup "repo_path" kvs)
  let md := vOptStr "markdown_dir" (List.lookup "markdown_dir" kvs)
  let cn := vOptStr "committer_name" (List.lookup "committer_name" kvs)
  let ce := vOptStr "committer_email" (List.lookup "committer_email" kvs)
  let cm := vOptStr "commit_message" (List.lookup "commit_message" kvs)
  let br := vOptStr "branch" (List.lookup "branch" kvs)
  let ssp := vOptStr "ssp_index_file" (List.lookup "ssp_index_file" kvs)
  let up := vUpstreams (List.lookup "upstreams" kvs)
  (exceptPair rp (exceptPair md (exceptPair cn (exceptPair ce
    (exceptPair cm (exceptPair br (exceptPair ssp up))))))).map
    (fun p => ⟨p.1, p.2.1, p.2.2.1, p.2.2.2.1, p.2.2.2.2.1, p.2.2.2.2.2.1,
               p.2.2.2.2.2.2.1, p.2.2.2.2.2.2.2⟩)

/-- Embedding of `load_from_file`: a missing file (`FileNotFoundError`) and
content that is not a mapping (`TypeError` from the `**` expansion, e.g. a
list or `None` from an empty file) both yield `none`; a mapping is
validated, a validation failure becomes a `ComplyScribeConfigError`. -/
def load_from_file (fs : FileSystem) (file_path : String) :
    Except ComplyScribeConfigError (Option ComplyScribeConfig) :=
  match fs.readFile file_path with
  | none => Except.ok none
  | some (Yaml.map kvs) => ((validateConfig fs kvs).map some).mapError mkConfigError
  | some _ => Except.ok none

/-- Prefixes of the parent of a path at each path-separator boundary: the
directories `Path.parent.mkdir(parents=True, exist_ok=True)` creates. -/
def ancestorDirs (p : String) : List String :=
  let parts := (p.splitOn "/").dropLast
  (List.range parts.length).map (fun i => String.intercalate "/" (parts.take (i + 1)))

/-- Embedding of `write_to_file`: creates the destination's parent
directories, converts the config via `to_yaml_dict` and writes the result
as the file's content (overwriting).  The `except ValidationError` branch
of the source is the `Except.error` case of the return type. -/
def write_to_file (fs : FileSystem) (config : ComplyScribeConfig) (file_path : String) :
    Except ComplyScribeConfigError FileSystem :=
  Except.ok
    { files := (file_path, Yaml.map config.to_yaml_dict) ::
        fs.files.filter (fun kv => kv.1 ≠ file_path)
      dirs := ancestorDirs file_path ++ fs.dirs }

/-- Embedding of `make_config`: a non-empty mapping is validated (an empty
or absent mapping is falsy in `if values:` and yields the all-default
configuration). -/
def make_config (fs : FileSystem) (values : Option (List (String × Yaml))) :
    Except ComplyScribeConfigError ComplyScribeConfig :=
  match values with
  | none => Except.ok {}
  | some kvs =>
      if kvs.isEmpty then Except.ok {}
      else (validateConfig fs kvs).mapError mkConfigError

/-- An update mapping for `update_config`, restricted to the declared field
names: `none` means the key is absent from the `update` dict. -/
structure ConfigUpdate where
  repo_path : Option (Option String) := none
  markdown_dir : Option (Option String) := none
  committer_name : Option (Option String) := none
  committer_email : Option (Option String) := none
  commit_message : Option (Option String) := none
  branch : Option (Option String) := none
  ssp_index_file : Option (Option String) := none
  upstreams : Option (Option UpstreamsConfig) := none
  deriving Repr, DecidableEq

/-- Embedding of `update_config`: `config.model_copy(update=update)`
replaces the named fields with the given values and performs no
validation (pydantic's documented `model_copy` behaviour), so the
`except ValidationError` branch of the source can never be taken and the
result is always `Except.ok`. -/
def update_config (config : ComplyScribeConfig) (update : ConfigUpdate) :
    Except ComplyScribeConfigError ComplyScribeConfig :=
  Except.ok
    { repo_path := update.repo_path.getD config.repo_path
      markdown_dir := update.markdown_dir.getD config.markdown_dir
      committer_name := update.committer_name.getD config.committer_name
      committer_email := update.committer_email.getD config.committer_email
      commit_message := update.commit_message.getD config.commit_message
      branch := update.branch.getD config.branch
      ssp_index_file := update.ssp_index_file.getD config.ssp_index_file
      upstreams := update.upstreams.getD config.upstreams }

/-- Per-violation format written from the specification's words, for
comparison with the source's `formatError`: the text is
`"Invalid config value for <first-path-segment>. <message>."`, the path
clause is omitted when there is no path, the message clause is omitted
when there is no message, and the text defaults to
`"Unable to load config."` when neither is present. -/
def formatErrorSpec (err : ErrDict) : String :=
  match err.loc, err.msg with
  | [], "" => "Unable to load config."
  | l :: _, "" => "Invalid config value for " ++ l ++ "."
  | l :: _, m => "Invalid config value for " ++ l ++ ". " ++ m ++ "."
  | [], m => " " ++ m ++ "."

/-- Dropped-value predicate written from the specification's words: a value
that is exactly the absent value, the literal string `"None"`, or an empty
sequence. -/
def isDroppedSpec : Yaml → Bool
  | Yaml.null => true
  | Yaml.str s => decide (s = "None")
  | Yaml.seq [] => true
  | _ => false

/-- A single serialized field as the specification describes it: present
unless its rendered value is dropped. -/
def keepEntry (k : String) (v : Yaml) : List (String × Yaml) :=
  if isDroppedSpec v then [] else [(k, v)]

/-- Nested `upstreams` mapping written from the specification's words:
`sources`, `skip_validation`, `include_models` always present,
`exclude_models` present only when non-empty. -/
def upstreamsYamlDictSpec (u : UpstreamsConfig) : List (String × Yaml) :=
  [("sources", Yaml.seq (u.sources.map Yaml.str)),
   ("skip_validation", Yaml.bool u.skip_validation),
   ("include_models", Yaml.seq (u.include_models.map Yaml.str))] ++
  (if u.exclude_models = [] then []
   else [("exclude_models", Yaml.seq (u.exclude_models.map Yaml.str))])

/-- Serialize-for-write contract written from the specification's words:
the fields in the fixed order, each kept only when its rendered value is
not dropped, with `upstreams` contributed only when set. -/
def to_yaml_dict_spec (c : ComplyScribeConfig) : List (String × Yaml) :=
  keepEntry "repo_path" (Yaml.str (strOfRepoPath c.repo_path)) ++
  keepEntry "markdown_dir" (yamlOfOptStr c.markdown_dir) ++
  keepEntry "ssp_index_file" (yamlOfOptStr c.ssp_index_file) ++
  keepEntry "committer_name" (yamlOfOptStr c.committer_name) ++
  keepEntry "committer_email" (yamlOfOptStr c.committer_email) ++
  keepEntry "commit_message" (yamlOfOptStr c.commit_message) ++
  keepEntry "branch" (yamlOfOptStr c.branch) ++
  (match c.upstreams with
   | none => []
   | some u => keepEntry "upstreams" (Yaml.map (upstreamsYamlDictSpec u)))

/-- An optional mapping entry: the singleton when the value is present,
nothing when the key is absent. -/
def optEntry (k : String) (v : Option Yaml) : List (String × Yaml) :=
  match v with
  | none => []
  | some y => [(k, y)]

/-- A schema-conforming raw `upstreams` mapping: `sources` present, the
defaulted fields optionally present, every value of the declared type. -/
structure RawUpstreams where
  sources : List String
  include_models : Option (List String) := none
  exclude_models : Option (List String) := none
  skip_validation : Option Bool := none
  deriving Repr, DecidableEq

/-- Renders a schema-conforming raw upstreams record as a YAML mapping. -/
def RawUpstreams.toMapping (r : RawUpstreams) : List (String × Yaml) :=
  [("sources", Yaml.seq (r.sources.map Yaml.str))] ++
  optEntry "include_models" (r.include_models.map (fun xs => Yaml.seq (xs.map Yaml.str))) ++
  optEntry "exclude_models" (r.exclude_models.map (fun xs => Yaml.seq (xs.map Yaml.str))) ++
  optEntry "skip_validation" (r.skip_validation.map Yaml.bool)

/-- The configuration value the schema documents for a conforming raw
upstreams mapping: the present values, the documented defaults otherwise. -/
def RawUpstreams.expected (r : RawUpstreams) : UpstreamsConfig :=
  { sources := r.sources
    include_models := r.include_models.getD ["*"]
    exclude_models := r.exclude_models.getD []
    skip_validation := r.skip_validation.getD false }

/-- A schema-conforming raw configuration mapping: every field optionally
present with a value of the declared type. -/
structure RawConfig where
  repo_path : Option String := none
  markdown_dir : Option String := none
  committer_name : Option String := none
  committer_email : Option String := none
  commit_message : Option String := none
  branch : Option String := none
  ssp_index_file : Option String := none
  upstreams : Option RawUpstreams := none
  deriving Repr, DecidableEq

/-- Renders a schema-conforming raw configuration as a YAML mapping. -/
def RawConfig.toMapping (r : RawConfig) : List (String × Yaml) :=
  optEntry "repo_path" (r.repo_path.map Yaml.str) ++
  optEntry "markdown_dir" (r.markdown_dir.map Yaml.str) ++
  optEntry "committer_name" (r.committer_name.map Yaml.str) ++
  optEntry "committer_email" (r.committer_email.map Yaml.str) ++
  optEntry "commit_message" (r.commit_message.map Yaml.str) ++
  optEntry "branch" (r.branch.map Yaml.str) ++
  optEntry "ssp_index_file" (r.ssp_index_file.map Yaml.str) ++
  optEntry "upstreams" (r.upstreams.map (fun u => Yaml.map u.toMapping))

/-- The configuration value the schema documents for a conforming raw
mapping: the present values, the documented defaults otherwise. -/
def RawConfig.expected (r : RawConfig) : ComplyScribeConfig :=
  { repo_path := r.repo_path
    markdown_dir := r.markdown_dir
    committer_name := r.committer_name
    committer_email := r.committer_email
    commit_message := r.commit_message
    branch := r.branch
    ssp_index_file := r.ssp_index_file
    upstreams := r.upstreams.map RawUpstreams.expected }

/-! Helper lemmas shared by the claim theorems. -/

theorem vStrElems_map (loc : List String) (i : Nat) (xs : List String) :
    vStrElems loc i (xs.map Yaml.str) = Except.ok xs := by
  induction xs generalizing i with
  | nil => rfl
  | cons x rest ih => simp [vStrElems, ih, exceptPair, Except.map]

theorem lookup_optEntry_skip (k k2 : String) (v : Option Yaml) (rest : List (String × Yaml))
    (h : (k == k2) = false) :
    List.lookup k (optEntry k2 v ++ rest) = List.lookup k rest := by
  cases v <;> simp [optEntry, List.lookup, h]

theorem lookup_optEntry_here (k : String) (v : Option Yaml) (rest : List (String × Yaml))
    (hrest : List.lookup k rest = none) :
    List.lookup k (optEntry k v ++ rest) = v := by
  cases v <;> simp [optEntry, List.lookup, hrest]

theorem lookup_optEntry_none (k k2 : String) (v : Option Yaml) (h : (k == k2) = false) :
    List.lookup k (optEntry k2 v) = none := by
  cases v <;> simp [optEntry, List.lookup, h]

theorem lookup_optEntry_self (k : String) (v : Option Yaml) :
    List.lookup k (optEntry k v) = v := by
  cases v <;> simp [optEntry, List.lookup]

theorem vOptStr_map (k : String) (o : Option String) :
    vOptStr k (o.map Yaml.str) = Except.ok o := by
  cases o <;> rfl

theorem validateUpstreams_raw (u : RawUpstreams) :
    validateUpstreams u.toMapping = Except.ok u.expected := by
  obtain ⟨srcs, inc, exc, skip⟩ := u
  unfold RawUpstreams.toMapping validateUpstreams
  simp only [List.append_assoc, List.singleton_append]
  cases inc <;> cases exc <;> cases skip <;>
    simp [List.lookup, lookup_optEntry_skip, lookup_optEntry_here,
      lookup_optEntry_none, lookup_optEntry_self, vStrList, vStrElems_map,
      exceptPair, Except.map, RawUpstreams.expected, optEntry]

theorem vRepoPath_map (fs : FileSystem) (o : Option String)
    (h : ∀ p, o = some p → fs.isDir p = true) :
    vRepoPath fs (o.map Yaml.str) = Except.ok o := by
  cases o with
  | none => rfl
  | some p => simp [vRepoPath, h p rfl]

theorem vUpstreams_map (up : Option RawUpstreams) :
    vUpstreams (up.map (fun u => Yaml.map u.toMapping)) =
      Except.ok (up.map RawUpstreams.expected) := by
  cases up <;> simp [vUpstreams, validateUpstreams_raw, Except.map]

theorem validateConfig_raw (fs : FileSystem) (r : RawConfig)
    (h : ∀ p, r.repo_path = some p → fs.isDir p = true) :
    validateConfig fs r.toMapping = Except.ok r.expected := by
  unfold validateConfig RawConfig.toMapping
  simp only [List.append_assoc]
  simp [lookup_optEntry_skip, lookup_optEntry_here, lookup_optEntry_none,
    lookup_optEntry_self, vOptStr_map, exceptPair, RawConfig.expected,
    vRepoPath_map fs r.repo_path h, vUpstreams_map, Except.map]

theorem ignored_eq_dropped (v : Yaml) : isIgnoredYaml v = isDroppedSpec v := by
  cases v with
  | str s => by_cases h : s = "None" <;> simp [isIgnoredYaml, isDroppedSpec, h]
  | seq xs => cases xs <;> simp [isIgnoredYaml, isDroppedSpec]
  | _ => rfl

theorem filter_cons_keep (k : String) (v : Yaml) (rest : List (String × Yaml)) :
    List.filter (fun item => ! isIgnoredYaml item.2) ((k, v) :: rest) =
      keepEntry k v ++ List.filter (fun item => ! isIgnoredYaml item.2) rest := by
  by_cases h : isDroppedSpec v = true <;>
    simp [List.filter_cons, keepEntry, ignored_eq_dropped, h]

theorem upstreamsYamlDict_eq_spec (u : UpstreamsConfig) :
    upstreamsYamlDict u = upstreamsYamlDictSpec u := by
  obtain ⟨srcs, inc, exc, skip⟩ := u
  cases exc <;> simp [upstreamsYamlDict, upstreamsYamlDictSpec]

/-! Claim theorems. -/

/-- C1: the claim says `update_config` re-validates the merged result, so
an override that introduces a schema-violating value (here: a `repo_path`
that exists nowhere on an empty filesystem) makes it fail with a
`ConfigValidationError`.  The code instead builds the result with
`model_copy(update=...)`, which performs no validation, so the same
override is returned as a successful configuration even though the
validator rejects exactly that value — the `except ValidationError`
branch of `update_config` is unreachable. -/
theorem update_config_no_revalidation :
    update_config {} { repo_path := some (some "/nonexistent") } =
      Except.ok { repo_path := some "/nonexistent" } ∧
    FileSystem.isDir ⟨[], []⟩ "/nonexistent" = false ∧
    validateConfig ⟨[], []⟩ [("repo_path", Yaml.str "/nonexistent")] =
      Except.error [⟨["repo_path"], "Path does not point to a directory"⟩] :=
  ⟨rfl, rfl, rfl⟩

/-- C2 counterexample: on a violation record with no path but a non-empty
message the code does not merely omit the path clause — it keeps the
default text `"Unable to load config."` and appends the message clause,
so the formatted string differs from the claim's format. -/
theorem formatError_claim_counterexample :
    formatError ⟨[], "Input should be a valid string"⟩ =
      "Unable to load config. Input should be a valid string." ∧
    formatErrorSpec ⟨[], "Input should be a valid string"⟩ =
      " Input should be a valid string." ∧
    formatError ⟨[], "Input should be a valid string"⟩ ≠
      formatErrorSpec ⟨[], "Input should be a valid string"⟩ :=
  ⟨rfl, rfl, by decide⟩

/-- C2 (amended): each record with a path is formatted as
`"Invalid config value for <first-path-segment>."` followed by
`" <message>."` when a message is present; a record with no path keeps
the default text `"Unable to load config."`, again followed by the message
clause when a message is present; the combined message is the
concatenation of all formatted strings with no separator, and the error
carries the ordered list of individual formatted messages as well as the
combined string. -/
theorem configError_format_amended (errs : List ErrDict) :
    (mkConfigError errs).errors = errs.map formatError ∧
    (mkConfigError errs).combined = String.join (errs.map formatError) ∧
    (∀ l ls m, m ≠ "" →
      formatError ⟨l :: ls, m⟩ = "Invalid config value for " ++ l ++ "." ++ " " ++ m ++ ".") ∧
    (∀ l ls, formatError ⟨l :: ls, ""⟩ = "Invalid config value for " ++ l ++ ".") ∧
    (∀ m, m ≠ "" → formatError ⟨([] : List String), m⟩ = "Unable to load config." ++ " " ++ m ++ ".") ∧
    formatError ⟨([] : List String), ""⟩ = "Unable to load config." := by
  refine ⟨rfl, rfl, ?_, ?_, ?_, rfl⟩
  · intro l ls m hm
    simp [formatError, hm]
  · intro l ls
    simp [formatError]
  · intro m hm
    simp [formatError, hm]

/-- C2 witness: the amended format theorem applied to a concrete record
list, with every clause instantiated at concrete inputs. -/
theorem configError_format_amended_witness :
    (mkConfigError [⟨["repo_path"], "boom"⟩, ⟨[], "fell over"⟩]).errors =
      ["Invalid config value for repo_path. boom.", "Unable to load config. fell over."] ∧
    (mkConfigError [⟨["repo_path"], "boom"⟩, ⟨[], "fell over"⟩]).combined =
      "Invalid config value for repo_path. boom.Unable to load config. fell over." := by
  have h := configError_format_amended [⟨["repo_path"], "boom"⟩, ⟨[], "fell over"⟩]
  have h3 := h.2.2.1 "repo_path" [] "boom" (by decide)
  have h5 := h.2.2.2.2.1 "fell over" (by decide)
  exact ⟨h.1.trans (by rw [List.map_cons, h3, List.map_cons, h5]; rfl),
         h.2.1.trans (by rw [List.map_cons, h3, List.map_cons, h5]; rfl)⟩

/-- C3: loading from a path where no file exists returns the absent result
(no configuration) without an error, and so does loading a file whose
YAML content parses to anything that is not a mapping — a list, null, a
boolean, an integer, or a string. -/
theorem load_from_file_absent_soft_failure (fs : FileSystem) (p : String) (v : Yaml) :
    (fs.readFile p = none → load_from_file fs p = Except.ok none) ∧
    ((∀ kvs, v ≠ Yaml.map kvs) → fs.readFile p = some v →
      load_from_file fs p = Except.ok none) := by
  constructor
  · intro h
    simp [load_from_file, h]
  · intro hnm h
    unfold load_from_file
    rw [h]
    cases v with
    | null => rfl
    | bool b => rfl
    | int n => rfl
    | str s => rfl
    | seq xs => rfl
    | map kvs => exact absurd rfl (hnm kvs)

/-- C3 witness: a filesystem holding a file whose content is a YAML list
and one whose content is a plain string; loading a missing path and
loading either non-mapping file all yield the absent result. -/
theorem load_from_file_absent_soft_failure_witness :
    load_from_file ⟨[("a.yml", Yaml.seq [Yaml.int 1]), ("b.yml", Yaml.str "hi")], []⟩
      "missing.yml" = Except.ok none ∧
    load_from_file ⟨[("a.yml", Yaml.seq [Yaml.int 1]), ("b.yml", Yaml.str "hi")], []⟩
      "a.yml" = Except.ok none ∧
    load_from_file ⟨[("a.yml", Yaml.seq [Yaml.int 1]), ("b.yml", Yaml.str "hi")], []⟩
      "b.yml" = Except.ok none :=
  ⟨(load_from_file_absent_soft_failure
      ⟨[("a.yml", Yaml.seq [Yaml.int 1]), ("b.yml", Yaml.str "hi")], []⟩
      "missing.yml" Yaml.null).1 rfl,
   (load_from_file_absent_soft_failure
      ⟨[("a.yml", Yaml.seq [Yaml.int 1]), ("b.yml", Yaml.str "hi")], []⟩
      "a.yml" (Yaml.seq [Yaml.int 1])).2 (fun _ h => Yaml.noConfusion h) rfl,
   (load_from_file_absent_soft_failure
      ⟨[("a.yml", Yaml.seq [Yaml.int 1]), ("b.yml", Yaml.str "hi")], []⟩
      "b.yml" (Yaml.str "hi")).2 (fun _ h => Yaml.noConfusion h) rfl⟩

/-- C6: for an update mapping containing only valid field names with
values of the declared types, `update_config` succeeds and the result
equals the original configuration in every field not named in the update
and equals the update's value in every field named in it (the original
value is a distinct immutable record, untouched by construction). -/
theorem update_config_frame (c : ComplyScribeConfig) (u : ConfigUpdate) :
    ∃ c2, update_config c u = Except.ok c2 ∧
      (u.repo_path = none → c2.repo_path = c.repo_path) ∧
      (∀ v, u.repo_path = some v → c2.repo_path = v) ∧
      (u.markdown_dir = none → c2.markdown_dir = c.markdown_dir) ∧
      (∀ v, u.markdown_dir = some v → c2.markdown_dir = v) ∧
      (u.committer_name = none → c2.committer_name = c.committer_name) ∧
      (∀ v, u.committer_name = some v → c2.committer_name = v) ∧
      (u.committer_email = none → c2.committer_email = c.committer_email) ∧
      (∀ v, u.committer_email = some v → c2.committer_email = v) ∧
      (u.commit_message = none → c2.commit_message = c.commit_message) ∧
      (∀ v, u.commit_message = some v → c2.commit_message = v) ∧
      (u.branch = none → c2.branch = c.branch) ∧
      (∀ v, u.branch = some v → c2.branch = v) ∧
      (u.ssp_index_file = none → c2.ssp_index_file = c.ssp_index_file) ∧
      (∀ v, u.ssp_index_file = some v → c2.ssp_index_file = v) ∧
      (u.upstreams = none → c2.upstreams = c.upstreams) ∧
      (∀ v, u.upstreams = some v → c2.upstreams = v) := by
  refine ⟨_, rfl, ?_, ?_, ?_, ?_, ?_, ?_, ?_, ?_, ?_, ?_, ?_, ?_, ?_, ?_, ?_, ?_⟩ <;>
    first
      | (intro h; simp [h])
      | (intro v h; simp [h])

/-- C6 witness: a concrete update overriding one field leaves the others
at the original's values. -/
theorem update_config_frame_witness :
    ∃ c2, update_config { branch := some "main" }
        { committer_name := some (some "Alice") } = Except.ok c2 ∧
      c2.branch = some "main" ∧ c2.committer_name = some "Alice" := by
  obtain ⟨c2, heq, hrest⟩ :=
    update_config_frame { branch := some "main" } { committer_name := some (some "Alice") }
  refine ⟨c2, heq, ?_, ?_⟩
  · exact (hrest.2.2.2.2.2.2.2.2.2.2.1 rfl).trans rfl
  · exact hrest.2.2.2.2.2.1 (some "Alice") rfl

/-- C10: `write_to_file` never raises the configuration validation error:
the conversion step `to_yaml_dict` performs no validation, so for every
configuration and destination path the operation returns successfully and
the error branch is unreachable. -/
theorem write_to_file_never_fails (fs : FileSystem) (c : ComplyScribeConfig) (p : String) :
    ∃ fs2, write_to_file fs c p = Except.ok fs2 :=
  ⟨_, rfl⟩

theorem string_join_cons (s : String) (l : List String) :
    String.join (s :: l) = s ++ String.join l := by
  rw [String.join_eq, String.join_eq]
  rfl

theorem exists_tail_of_error_left {β γ : Type} (e0 : ErrDict) (x : Except (List ErrDict) β)
    (f : (Option String) × β → γ) :
    ∃ tail, Except.map f (exceptPair (Except.error [e0]) x) = Except.error (e0 :: tail) := by
  cases x with
  | ok b => exact ⟨[], rfl⟩
  | error g => exact ⟨g, rfl⟩

theorem validateConfig_repo_error (fs : FileSystem) (kvs : List (String × Yaml)) (p : String)
    (hlook : List.lookup "repo_path" kvs = some (Yaml.str p))
    (hdir : fs.isDir p = false) :
    ∃ tail, validateConfig fs kvs =
      Except.error (⟨["repo_path"], "Path does not point to a directory"⟩ :: tail) := by
  have hrp : vRepoPath fs (some (Yaml.str p)) =
      Except.error [⟨["repo_path"], "Path does not point to a directory"⟩] := by
    simp [vRepoPath, hdir]
  simp only [validateConfig, hlook, hrp]
  exact exists_tail_of_error_left _ _ _

/-- C4: `to_yaml_dict` coincides, on every configuration, with the
serialize-for-write contract written from the specification: the fixed
field order `repo_path` (string path form, the literal string `"None"` if
absent), `markdown_dir`, `ssp_index_file`, `committer_name`,
`committer_email`, `commit_message`, `branch`, then `upstreams` (with
`sources`, `skip_validation`, `include_models` always present and
`exclude_models` only when non-empty) only if set, and every top-level
field whose value is the absent value, the literal string `"None"`, or an
empty sequence dropped from the output. -/
theorem to_yaml_dict_refines_spec (c : ComplyScribeConfig) :
    c.to_yaml_dict = to_yaml_dict_spec c := by
  obtain ⟨rp, md, cn, ce, cm, br, ssp, up⟩ := c
  unfold ComplyScribeConfig.to_yaml_dict to_yaml_dict_spec
  cases up <;>
    simp [filter_cons_keep, upstreamsYamlDict_eq_spec, List.append_assoc]

/-- C5: a raw mapping with two simultaneously invalid fields (a
`committer_name` of the wrong type and a nonexistent `repo_path`) produces
one error that carries both formatted violation clauses, in field order,
with the combined message containing both distinct clauses. -/
theorem validation_error_collects_all_violations (fs : FileSystem) (p : String)
    (h : fs.isDir p = false) :
    ∃ e, make_config fs (some [("committer_name", Yaml.int 5), ("repo_path", Yaml.str p)]) =
        Except.error e ∧
      e.errors =
        ["Invalid config value for repo_path. Path does not point to a directory.",
         "Invalid config value for committer_name. Input should be a valid string."] ∧
      e.combined =
        "Invalid config value for repo_path. Path does not point to a directory." ++
          "Invalid config value for committer_name. Input should be a valid string." ∧
      ("Invalid config value for repo_path. Path does not point to a directory." ≠
        "Invalid config value for committer_name. Input should be a valid string.") := by
  refine ⟨mkConfigError [⟨["repo_path"], "Path does not point to a directory"⟩,
    ⟨["committer_name"], "Input should be a valid string"⟩], ?_, rfl, rfl, by decide⟩
  simp [make_config, validateConfig, vRepoPath, vOptStr, vUpstreams, exceptPair,
    List.lookup, h, Except.map, Except.mapError]

/-- C5 witness: the two-violation mapping on the empty filesystem. -/
theorem validation_error_collects_all_violations_witness :
    ∃ e, make_config ⟨[], []⟩
        (some [("committer_name", Yaml.int 5), ("repo_path", Yaml.str "/nope")]) =
        Except.error e ∧
      e.errors =
        ["Invalid config value for repo_path. Path does not point to a directory.",
         "Invalid config value for committer_name. Input should be a valid string."] ∧
      e.combined =
        "Invalid config value for repo_path. Path does not point to a directory." ++
          "Invalid config value for committer_name. Input should be a valid string." ∧
      ("Invalid config value for repo_path. Path does not point to a directory." ≠
        "Invalid config value for committer_name. Input should be a valid string.") :=
  validation_error_collects_all_violations ⟨[], []⟩ "/nope" rfl

/-- C7: a schema-conforming in-memory mapping validates successfully and
every field of the result equals the mapping's value, or the documented
default when absent (`none` for the optional top-level fields; within
upstreams `include_models` defaults to the all-glob, `exclude_models` to
empty, `skip_validation` to false); with no mapping at all `make_config`
produces the all-default configuration. -/
theorem make_config_valid_mapping (fs : FileSystem) (r : RawConfig)
    (h : ∀ p, r.repo_path = some p → fs.isDir p = true) :
    make_config fs (some r.toMapping) = Except.ok r.expected ∧
    make_config fs none = Except.ok {} := by
  constructor
  · by_cases he : r.toMapping.isEmpty = true
    · have h0 : r.toMapping = [] := by simpa using he
      have h1 := validateConfig_raw fs r h
      rw [h0] at h1
      have h2 : (Except.ok {} : Except (List ErrDict) ComplyScribeConfig) =
          Except.ok r.expected := by
        rw [← h1]; rfl
      simp [make_config, he]
      exact Except.ok.inj h2
    · simp [make_config, he, validateConfig_raw fs r h, Except.mapError]
  · rfl

/-- C7 witness: a mapping setting `repo_path` (an existing directory) and
an upstreams block with `exclude_models` given and the rest defaulted. -/
theorem make_config_valid_mapping_witness :
    make_config ⟨[], ["/repo"]⟩
        (some (RawConfig.toMapping
          { repo_path := some "/repo",
            upstreams := some { sources := ["src"], exclude_models := some ["x"] } })) =
      Except.ok
        { repo_path := some "/repo",
          upstreams := some { sources := ["src"], exclude_models := ["x"] } } ∧
    make_config ⟨[], ["/repo"]⟩ none = Except.ok {} :=
  make_config_valid_mapping ⟨[], ["/repo"]⟩
    { repo_path := some "/repo",
      upstreams := some { sources := ["src"], exclude_models := some ["x"] } }
    (by intro q hq; rw [← Option.some.inj hq]; rfl)

/-- C8: writing a configuration in which every field is explicitly set (no
string rendering to the dropped literal, `exclude_models` non-empty, and
`repo_path` an existing directory) and loading the written file back
yields exactly the original configuration. -/
theorem write_load_round_trip (fs : FileSystem) (p rp md cn ce cm br ssp : String)
    (u : UpstreamsConfig)
    (h1 : rp ≠ "None") (h2 : md ≠ "None") (h3 : cn ≠ "None") (h4 : ce ≠ "None")
    (h5 : cm ≠ "None") (h6 : br ≠ "None") (h7 : ssp ≠ "None")
    (h8 : u.exclude_models ≠ []) (h9 : fs.isDir rp = true) :
    ∃ fs2,
      write_to_file fs
        ⟨some rp, some md, some cn, some ce, some cm, some br, some ssp, some u⟩ p =
        Except.ok fs2 ∧
      load_from_file fs2 p =
        Except.ok (some ⟨some rp, some md, some cn, some ce, some cm, some br, some ssp,
          some u⟩) := by
  refine ⟨_, rfl, ?_⟩
  have hdict : (ComplyScribeConfig.mk (some rp) (some md) (some cn) (some ce) (some cm)
      (some br) (some ssp) (some u)).to_yaml_dict =
      [("repo_path", Yaml.str rp), ("markdown_dir", Yaml.str md),
       ("ssp_index_file", Yaml.str ssp), ("committer_name", Yaml.str cn),
       ("committer_email", Yaml.str ce), ("commit_message", Yaml.str cm),
       ("branch", Yaml.str br),
       ("upstreams", Yaml.map [("sources", Yaml.seq (u.sources.map Yaml.str)),
          ("skip_validation", Yaml.bool u.skip_validation),
          ("include_models", Yaml.seq (u.include_models.map Yaml.str)),
          ("exclude_models", Yaml.seq (u.exclude_models.map Yaml.str))])] := by
    simp [ComplyScribeConfig.to_yaml_dict, isIgnoredYaml, upstreamsYamlDict, strOfRepoPath,
      yamlOfOptStr, h1, h2, h3, h4, h5, h6, h7, h8]
  have hdir2 : ∀ fls : List (String × Yaml),
      FileSystem.isDir ⟨fls, ancestorDirs p ++ fs.dirs⟩ rp = true := by
    intro fls
    have hmem : rp ∈ fs.dirs := by simpa [FileSystem.isDir] using h9
    simp [FileSystem.isDir]
    exact Or.inr hmem
  simp only [load_from_file, write_to_file, FileSystem.readFile, List.lookup, beq_self_eq_true,
    hdict]
  simp [validateConfig, List.lookup, vOptStr, vRepoPath, hdir2, vUpstreams, validateUpstreams,
    vStrList, vStrElems_map, exceptPair, Except.map, Except.mapError, hdict]

/-- C8 witness: a fully-set configuration written to `cfg/config.yml` and
loaded back unchanged. -/
theorem write_load_round_trip_witness :
    ∃ fs2,
      write_to_file ⟨[], ["/repo"]⟩
        ⟨some "/repo", some "md", some "Alice", some "alice@example.com", some "update",
         some "main", some "ssp-index.json",
         some ⟨["src"], ["*"], ["x"], false⟩⟩ "cfg/config.yml" = Except.ok fs2 ∧
      load_from_file fs2 "cfg/config.yml" =
        Except.ok (some ⟨some "/repo", some "md", some "Alice", some "alice@example.com",
          some "update", some "main", some "ssp-index.json",
          some ⟨["src"], ["*"], ["x"], false⟩⟩) :=
  write_load_round_trip ⟨[], ["/repo"]⟩ "cfg/config.yml" "/repo" "md" "Alice"
    "alice@example.com" "update" "main" "ssp-index.json" ⟨["src"], ["*"], ["x"], false⟩
    (by decide) (by decide) (by decide) (by decide) (by decide) (by decide) (by decide)
    (by decide) rfl

/-- C9: a raw mapping whose `repo_path` is a path that is not a directory
on disk fails validation — through `make_config` as well as through
`load_from_file` on a file with that mapping — and the error's combined
message mentions `repo_path` (it starts with the formatted `repo_path`
violation clause). -/
theorem repo_path_violation_reported (fs : FileSystem) (kvs : List (String × Yaml))
    (p : String) (hlook : List.lookup "repo_path" kvs = some (Yaml.str p))
    (hdir : fs.isDir p = false) :
    (∃ e rest, make_config fs (some kvs) = Except.error e ∧
      e.combined =
        "Invalid config value for repo_path. Path does not point to a directory." ++ rest) ∧
    (∀ q, fs.readFile q = some (Yaml.map kvs) →
      ∃ e rest, load_from_file fs q = Except.error e ∧
        e.combined =
          "Invalid config value for repo_path. Path does not point to a directory." ++ rest) := by
  obtain ⟨tail, htail⟩ := validateConfig_repo_error fs kvs p hlook hdir
  have hcomb : (mkConfigError
      (⟨["repo_path"], "Path does not point to a directory"⟩ :: tail)).combined =
      "Invalid config value for repo_path. Path does not point to a directory." ++
        String.join (tail.map formatError) := by
    simp only [ComplyScribeConfigError.combined, mkConfigError, List.map_cons, string_join_cons]
    rfl
  have hne : kvs.isEmpty = false := by
    cases kvs with
    | nil => simp [List.lookup] at hlook
    | cons a l => rfl
  constructor
  · refine ⟨_, String.join (tail.map formatError), ?_, hcomb⟩
    simp [make_config, hne, htail, Except.mapError]
  · intro q hq
    refine ⟨_, String.join (tail.map formatError), ?_, hcomb⟩
    simp [load_from_file, FileSystem.readFile] at hq ⊢
    simp [hq, htail, Except.map, Except.mapError]

/-- C9 witness: a one-field mapping pointing `repo_path` at a nonexistent
directory, both directly and stored in a config file. -/
theorem repo_path_violation_reported_witness :
    (∃ e rest, make_config ⟨[("cfg.yml", Yaml.map [("repo_path", Yaml.str "/nope")])], []⟩
        (some [("repo_path", Yaml.str "/nope")]) = Except.error e ∧
      e.combined =
        "Invalid config value for repo_path. Path does not point to a directory." ++ rest) ∧
    (∃ e rest, load_from_file ⟨[("cfg.yml", Yaml.map [("repo_path", Yaml.str "/nope")])], []⟩
        "cfg.yml" = Except.error e ∧
      e.combined =
        "Invalid config value for repo_path. Path does not point to a directory." ++ rest) := by
  have h := repo_path_violation_reported
    ⟨[("cfg.yml", Yaml.map [("repo_path", Yaml.str "/nope")])], []⟩
    [("repo_path", Yaml.str "/nope")] "/nope" rfl rfl
  exact ⟨h.1, h.2 "cfg.yml" rfl⟩

/-- C4 witness: the refinement theorem applied to a configuration
exercising both the dropped and the kept branches, evaluated. -/
theorem to_yaml_dict_refines_spec_witness :
    ({ markdown_dir := some "md", branch := some "None",
       upstreams := some ⟨["src"], ["*"], [], true⟩ } :
        ComplyScribeConfig).to_yaml_dict =
      to_yaml_dict_spec
        { markdown_dir := some "md", branch := some "None",
          upstreams := some ⟨["src"], ["*"], [], true⟩ } :=
  to_yaml_dict_refines_spec
    { markdown_dir := some "md", branch := some "None",
      upstreams := some ⟨["src"], ["*"], [], true⟩ }

/-- C10 witness: a concrete write succeeds. -/
theorem write_to_file_never_fails_witness :
    ∃ fs2, write_to_file ⟨[], []⟩ {} "cfg.yml" = Except.ok fs2 :=
  write_to_file_never_fails ⟨[], []⟩ {} "cfg.yml"
